import Mathlib

/-
Verification of the vorbis-player dual-TTL track cache and the video
discovery flow, as a shallow embedding of:
  src/src/services/trackDataCache.ts
  src/src/components/VideoPlayer.tsx
  src/services/spotify.ts (checkTrackSaved and friends)
Timestamps are modelled as Nat milliseconds; Date.now() becomes an explicit
`now` argument.  The JavaScript Map is modelled as an association list in
insertion order (Map iteration order), with in-place update on an existing
key.  JavaScript truthiness of numeric timestamp fields (0 is falsy) is
modelled explicitly where the source tests truthiness.
-/

namespace VorbisPlayer

/-- The Track interface (src/types/track, re-exported by spotify.ts; shape as
used by trackDataCache.ts and the test fixtures): id, name, artists, album,
duration_ms, uri, optional preview_url and image. -/
structure Track where
  id : String
  name : String
  artists : String
  album : String
  duration_ms : Nat
  uri : String
  preview_url : Option String := none
  image : Option String := none
deriving DecidableEq

/-- CachedTrack (trackDataCache.ts lines 6-17): Track plus caching metadata.
Optional fields are Option; `none` is the absent/undefined field. -/
structure CachedTrack where
  id : String
  name : String
  artists : String
  album : String
  duration_ms : Nat
  uri : String
  preview_url : Option String := none
  image : Option String := none
  isLiked : Option Bool := none
  likeStatusChecked : Option Nat := none
  metadataFetched : Option Nat := none
  cacheExpires : Option Nat := none
  lastAccessed : Option Nat := none
deriving DecidableEq

/-- TrackCacheConfig (trackDataCache.ts lines 22-33); the debug and
localStorage flags only affect logging and persistence, not cache
semantics, and are omitted. -/
structure TrackCacheConfig where
  maxSize : Nat
  metadataTtlMs : Nat
  likeStatusTtlMs : Nat
deriving DecidableEq

/-- The dataType argument of isExpired: the data facet selector
(metadata or likeStatus). -/
inductive DataType where
  | metadata
  | likeStatus
deriving DecidableEq

/-- The cache Map, as an association list in insertion order. -/
abbrev CacheStore := List (String × CachedTrack)

/-- Map.get: first entry with the given key. -/
def mapGet (s : CacheStore) (k : String) : Option CachedTrack :=
  (s.find? (fun p => p.1 == k)).map (fun p => p.2)

/-- Map.set: replace in place when the key exists (preserving iteration
order), otherwise append. -/
def mapSet (s : CacheStore) (k : String) (v : CachedTrack) : CacheStore :=
  if s.any (fun p => p.1 == k) then
    s.map (fun p => if p.1 == k then (k, v) else p)
  else
    s ++ [(k, v)]

/-- Map.delete: remove every entry with the given key. -/
def mapDelete (s : CacheStore) (k : String) : CacheStore :=
  s.filter (fun p => p.1 != k)

/-- Well-formedness of a store reached through the cache operations:
keys are distinct (a JavaScript Map cannot hold a key twice) and nonempty
(every mutator rejects an empty trackId, and loadFromLocalStorage skips
falsy ids). -/
def WF (s : CacheStore) : Prop :=
  (s.map Prod.fst).Nodup ∧ ∀ p ∈ s, p.1 ≠ ""

instance (s : CacheStore) : Decidable (WF s) := by
  unfold WF
  infer_instance

/-- Metadata facet expiry for one record (trackDataCache.ts lines 384-387):
`!metadataFetched || now > metadataFetched + metadataTtlMs`; the timestamp 0
is falsy in JavaScript. -/
def metadataExpiredAt (cfg : TrackCacheConfig) (now : Nat) (c : CachedTrack) : Bool :=
  match c.metadataFetched with
  | none => true
  | some mf => mf == 0 || decide (now > mf + cfg.metadataTtlMs)

/-- Like status facet expiry for one record (trackDataCache.ts lines
389-392). -/
def likeStatusExpiredAt (cfg : TrackCacheConfig) (now : Nat) (c : CachedTrack) : Bool :=
  match c.likeStatusChecked with
  | none => true
  | some lc => lc == 0 || decide (now > lc + cfg.likeStatusTtlMs)

/-- Overall expiry for one record (trackDataCache.ts line 395):
`cacheExpires ? now > cacheExpires : false`. -/
def overallExpiredAt (now : Nat) (c : CachedTrack) : Bool :=
  match c.cacheExpires with
  | none => false
  | some ce => !(ce == 0) && decide (now > ce)

/-- isExpired (trackDataCache.ts lines 376-396). -/
def isExpired (cfg : TrackCacheConfig) (s : CacheStore) (now : Nat)
    (trackId : String) (dataType : Option DataType) : Bool :=
  if trackId = "" then true
  else
    match mapGet s trackId with
    | none => true
    | some cached =>
      match dataType with
      | some DataType.metadata => metadataExpiredAt cfg now cached
      | some DataType.likeStatus => likeStatusExpiredAt cfg now cached
      | none => overallExpiredAt now cached

/-- Sort key of enforceMaxSize (trackDataCache.ts line 406):
`a.lastAccessed || 0`. -/
def laKey (p : String × CachedTrack) : Nat :=
  p.2.lastAccessed.getD 0

/-- The comparator order of enforceMaxSize: ascending lastAccessed. -/
def laLE (p q : String × CachedTrack) : Prop :=
  laKey p ≤ laKey q

instance : DecidableRel laLE := fun p q => Nat.decLe (laKey p) (laKey q)

instance : IsTotal (String × CachedTrack) laLE :=
  ⟨fun p q => Nat.le_total (laKey p) (laKey q)⟩

instance : IsTrans (String × CachedTrack) laLE :=
  ⟨fun _ _ _ h1 h2 => Nat.le_trans h1 h2⟩

/-- enforceMaxSize (trackDataCache.ts lines 401-418): when over the bound,
snapshot the entries, stable-sort ascending by lastAccessed (Array.sort with
a numeric comparator is stable, so insertionSort matches it), and delete the
first `size - maxSize` of them. -/
def enforceMaxSize (cfg : TrackCacheConfig) (s : CacheStore) : CacheStore :=
  if s.length ≤ cfg.maxSize then s
  else
    let entries := List.insertionSort laLE s
    let toRemove := s.length - cfg.maxSize
    (entries.take toRemove).foldl (fun acc p => mapDelete acc p.1) s

/-- The record written by setTrack (trackDataCache.ts lines 134-147): fresh
metadata clocks, plus the existing like status when it is present and not
expired at write time. -/
def setTrackRecord (cfg : TrackCacheConfig) (s : CacheStore) (now : Nat)
    (track : Track) : CachedTrack :=
  let base : CachedTrack :=
    { id := track.id, name := track.name, artists := track.artists,
      album := track.album, duration_ms := track.duration_ms, uri := track.uri,
      preview_url := track.preview_url, image := track.image,
      isLiked := none, likeStatusChecked := none,
      metadataFetched := some now,
      cacheExpires := some (now + cfg.metadataTtlMs),
      lastAccessed := some now }
  match mapGet s track.id with
  | some existing =>
    if isExpired cfg s now track.id (some DataType.likeStatus) = false then
      { base with isLiked := existing.isLiked,
                  likeStatusChecked := existing.likeStatusChecked }
    else base
  | none => base

/-- setTrack (trackDataCache.ts lines 128-159). -/
def setTrack (cfg : TrackCacheConfig) (s : CacheStore) (now : Nat)
    (track : Track) : CacheStore :=
  if track.id = "" then s
  else enforceMaxSize cfg (mapSet s track.id (setTrackRecord cfg s now track))

/-- getTrack (trackDataCache.ts lines 98-122): touch lastAccessed, then
delete and miss when the overall clock is expired, otherwise hit with a
copy.  Returns the value together with the updated store. -/
def getTrack (cfg : TrackCacheConfig) (s : CacheStore) (now : Nat)
    (trackId : String) : Option CachedTrack × CacheStore :=
  if trackId = "" then (none, s)
  else
    match mapGet s trackId with
    | none => (none, s)
    | some cached =>
      let touched := { cached with lastAccessed := some now }
      let s2 := mapSet s trackId touched
      if isExpired cfg s2 now trackId none then (none, mapDelete s2 trackId)
      else (some touched, s2)

/-- getLikeStatus (trackDataCache.ts lines 210-233): the expiry check comes
before the lastAccessed touch; the result is `cached.isLiked ?? null`. -/
def getLikeStatus (cfg : TrackCacheConfig) (s : CacheStore) (now : Nat)
    (trackId : String) : Option Bool × CacheStore :=
  if trackId = "" then (none, s)
  else
    match mapGet s trackId with
    | none => (none, s)
    | some cached =>
      if isExpired cfg s now trackId (some DataType.likeStatus) then (none, s)
      else (cached.isLiked, mapSet s trackId { cached with lastAccessed := some now })

/-- The record written by setLikeStatus (trackDataCache.ts lines 246-269):
in place update of an existing entry, or a minimal record otherwise. -/
def setLikeStatusRecord (cfg : TrackCacheConfig) (s : CacheStore) (now : Nat)
    (trackId : String) (isLiked : Bool) : CachedTrack :=
  match mapGet s trackId with
  | some existing =>
    { existing with isLiked := some isLiked, likeStatusChecked := some now,
                    lastAccessed := some now }
  | none =>
    { id := trackId, name := "", artists := "", album := "",
      duration_ms := 0, uri := "", preview_url := none, image := none,
      isLiked := some isLiked, likeStatusChecked := some now,
      metadataFetched := none,
      cacheExpires := some (now + cfg.likeStatusTtlMs),
      lastAccessed := some now }

/-- setLikeStatus (trackDataCache.ts lines 240-280). -/
def setLikeStatus (cfg : TrackCacheConfig) (s : CacheStore) (now : Nat)
    (trackId : String) (isLiked : Bool) : CacheStore :=
  if trackId = "" then s
  else enforceMaxSize cfg (mapSet s trackId (setLikeStatusRecord cfg s now trackId isLiked))

/-- Partial updates for updateTrack (Partial of CachedTrack); a `some` field
is present in the update object. -/
structure TrackUpdates where
  id : Option String := none
  name : Option String := none
  artists : Option String := none
  album : Option String := none
  duration_ms : Option Nat := none
  uri : Option String := none
  preview_url : Option String := none
  image : Option String := none
  isLiked : Option Bool := none
  likeStatusChecked : Option Nat := none
  metadataFetched : Option Nat := none
  cacheExpires : Option Nat := none
  lastAccessed : Option Nat := none
deriving DecidableEq

/-- JavaScript truthiness of an optional string field: present and not the
empty string. -/
def truthyStr (o : Option String) : Bool :=
  match o with
  | none => false
  | some v => v != ""

/-- The record written by updateTrack (trackDataCache.ts lines 178-195):
spread of existing and updates, lastAccessed touched, metadata clocks
refreshed when a truthy metadata field is updated, likeStatusChecked
refreshed when isLiked is present in the updates. -/
def updateTrackRecord (cfg : TrackCacheConfig) (now : Nat)
    (existing : CachedTrack) (updates : TrackUpdates) : CachedTrack :=
  let spread : CachedTrack :=
    { id := updates.id.getD existing.id,
      name := updates.name.getD existing.name,
      artists := updates.artists.getD existing.artists,
      album := updates.album.getD existing.album,
      duration_ms := updates.duration_ms.getD existing.duration_ms,
      uri := updates.uri.getD existing.uri,
      preview_url := updates.preview_url.orElse (fun _ => existing.preview_url),
      image := updates.image.orElse (fun _ => existing.image),
      isLiked := updates.isLiked.orElse (fun _ => existing.isLiked),
      likeStatusChecked := updates.likeStatusChecked.orElse (fun _ => existing.likeStatusChecked),
      metadataFetched := updates.metadataFetched.orElse (fun _ => existing.metadataFetched),
      cacheExpires := updates.cacheExpires.orElse (fun _ => existing.cacheExpires),
      lastAccessed := some now }
  let afterMeta :=
    if truthyStr updates.name || truthyStr updates.artists
        || truthyStr updates.album || truthyStr updates.image then
      { spread with metadataFetched := some now,
                    cacheExpires := some (now + cfg.metadataTtlMs) }
    else spread
  if updates.isLiked.isSome then
    { afterMeta with likeStatusChecked := some now }
  else afterMeta

/-- updateTrack (trackDataCache.ts lines 166-203): no eviction pass runs
here. -/
def updateTrack (cfg : TrackCacheConfig) (s : CacheStore) (now : Nat)
    (trackId : String) (updates : TrackUpdates) : CacheStore :=
  if trackId = "" then s
  else
    match mapGet s trackId with
    | none => s
    | some existing => mapSet s trackId (updateTrackRecord cfg now existing updates)

/-- size (trackDataCache.ts lines 321-323). -/
def size (s : CacheStore) : Nat := s.length

/-- hasTrack (trackDataCache.ts lines 366-368): existence regardless of
expiration. -/
def hasTrack (s : CacheStore) (trackId : String) : Bool :=
  if trackId = "" then false else (mapGet s trackId).isSome

/-- The per-entry removal test of cleanup (trackDataCache.ts lines 334-346):
remove when `cacheExpires && now > cacheExpires`, or when both the metadata
and the like status facets are expired. -/
def cleanupRemove (cfg : TrackCacheConfig) (s : CacheStore) (now : Nat)
    (p : String × CachedTrack) : Bool :=
  let metadataExpired := isExpired cfg s now p.1 (some DataType.metadata)
  let likeStatusExpired := isExpired cfg s now p.1 (some DataType.likeStatus)
  overallExpiredAt now p.2 || (metadataExpired && likeStatusExpired)

/-- cleanup (trackDataCache.ts lines 329-359): sweep every entry with
cleanupRemove; deleting the entry under iteration is safe on a JavaScript
Map, and each test only reads the own key of the entry, so the sweep is a
filter.  Returns the surviving store and the removed count. -/
def cleanup (cfg : TrackCacheConfig) (s : CacheStore) (now : Nat) :
    CacheStore × Nat :=
  (s.filter (fun p => !(cleanupRemove cfg s now p)),
   (s.filter (fun p => cleanupRemove cfg s now p)).length)

/-- What a stored cache snapshot parses to, when JSON.parse succeeds:
either not an array, or an array of [trackId, track] pairs
(trackDataCache.ts lines 447-455).  The per-entry object check of line 451
is subsumed by typing the entries. -/
inductive SnapshotData where
  | notArray
  | arrayEntries (l : List (String × CachedTrack))
deriving DecidableEq

/-- loadFromLocalStorage (trackDataCache.ts lines 443-463).  The stored
value is `none` when nothing is stored; `some (Except.error e)` when
JSON.parse throws.  The catch discards the snapshot (and clears the storage
key), so the function is total and returns the empty cache on a parse
failure: no error reaches the caller. -/
def loadFromLocalStorage (stored : Option (Except String SnapshotData)) : CacheStore :=
  match stored with
  | none => []
  | some (Except.error _) => []
  | some (Except.ok SnapshotData.notArray) => []
  | some (Except.ok (SnapshotData.arrayEntries l)) =>
    l.foldl (fun acc p => if p.1 ≠ "" then mapSet acc p.1 p.2 else acc) []

/-- loadBlacklist (VideoPlayer.tsx lines 108-119): parse the stored JSON
array into a Set (dedup keeping first occurrences); any failure is caught
and yields the empty set.  Total: no error reaches the caller. -/
def loadBlacklist (stored : Option (Except String (List String))) : List String :=
  match stored with
  | none => []
  | some (Except.error _) => []
  | some (Except.ok arr) => arr.eraseDups

/-- The outcome of the upstream like status request in checkTrackSaved:
an ok JSON array of booleans, a non-ok HTTP response, or a thrown network
failure. -/
inductive ApiResponse where
  | ok (data : List Bool)
  | httpError (status : Nat)
  | networkFailure (msg : String)
deriving DecidableEq

/-- The catch block of checkTrackSaved (spotify.ts lines 1805-1818 of the
concatenated source): fall back to getTrack and its isLiked field; rethrow
the original error when that yields nothing. -/
def checkTrackSavedFallback (cfg : TrackCacheConfig) (s : CacheStore)
    (now : Nat) (trackId : String) (errMsg : String) :
    Except String Bool × CacheStore :=
  let g := getTrack cfg s now trackId
  match g.1 with
  | some cachedTrack =>
    match cachedTrack.isLiked with
    | some b => (Except.ok b, g.2)
    | none => (Except.error errMsg, g.2)
  | none => (Except.error errMsg, g.2)

/-- checkTrackSaved (spotify.ts lines 1772-1819 of the concatenated
source): cache first via getLikeStatus; on a miss, the API call; a non-ok
status throws inside the same try, so both error shapes reach the fallback. -/
def checkTrackSaved (cfg : TrackCacheConfig) (s : CacheStore) (now : Nat)
    (trackId : String) (api : ApiResponse) : Except String Bool × CacheStore :=
  let c := getLikeStatus cfg s now trackId
  match c.1 with
  | some b => (Except.ok b, c.2)
  | none =>
    match api with
    | ApiResponse.ok data =>
      let isLiked := data.headD false
      (Except.ok isLiked, setLikeStatus cfg c.2 now trackId isLiked)
    | ApiResponse.httpError status =>
      checkTrackSavedFallback cfg c.2 now trackId
        ("Failed to check track saved status: " ++ toString status)
    | ApiResponse.networkFailure msg =>
      checkTrackSavedFallback cfg c.2 now trackId msg

/-- A search result of the video discovery (shape used by VideoPlayer.tsx
lines 189-200: id, title, thumbnailUrl). -/
structure VideoResult where
  id : String
  title : String
  thumbnailUrl : String
deriving DecidableEq

/-- A saved track-video association (shape used by VideoPlayer.tsx lines
159-171: videoId, videoTitle, videoThumbnail). -/
structure SavedAssociation where
  videoId : String
  videoTitle : String
  videoThumbnail : String
deriving DecidableEq

/-- The external collaborators of fetchVideoForTrack: the saved association
lookup (videoManagementService.getVideoForTrack) and the raw search results
of the provider before exclusion filtering. -/
structure DiscoveryEnv where
  savedAssociation : Track → Option SavedAssociation
  rawSearch : Track → List VideoResult

/-- Modelled from the spec: videoSearchOrchestrator.findAlternativeVideos is
not under src (only its caller VideoPlayer.tsx and the docs are).  Per spec
section 4.5 the search is invoked with the exclusion set as excluded ids,
and excluded candidates are not returned; accepted candidates come back
ranked best first (VideoPlayer.tsx takes searchResults[0] as best). -/
def findAlternativeVideos (env : DiscoveryEnv) (track : Track)
    (excludeIds : List String) : List VideoResult :=
  (env.rawSearch track).filter (fun v => !(excludeIds.contains v.id))

/-- The resolution outcome of one fetchVideoForTrack call. -/
inductive FetchOutcome where
  | resolvedPinned (a : SavedAssociation)
  | resolvedSearch (v : VideoResult)
  | noneFound
deriving DecidableEq

/-- A fetch outcome together with the excludeIds list that was handed to
the search (none when the saved-association short circuit skipped the
search). -/
structure FetchResult where
  outcome : FetchOutcome
  searchedExcludeIds : Option (List String)
deriving DecidableEq

/-- fetchVideoForTrack resolution logic (VideoPlayer.tsx lines 147-214):
a saved association short-circuits to a resolution without consulting the
blacklist; otherwise the whole current blacklist is passed to
findAlternativeVideos and the first result wins. -/
def fetchVideoForTrack (env : DiscoveryEnv) (blacklist : List String)
    (track : Track) : FetchResult :=
  match env.savedAssociation track with
  | some a => { outcome := FetchOutcome.resolvedPinned a, searchedExcludeIds := none }
  | none =>
    let blacklistedArray := blacklist
    let searchResults := findAlternativeVideos env track blacklistedArray
    match searchResults with
    | [] => { outcome := FetchOutcome.noneFound, searchedExcludeIds := some blacklistedArray }
    | best :: _ => { outcome := FetchOutcome.resolvedSearch best, searchedExcludeIds := some blacklistedArray }

/-- The id of the video a fetch resolved to, if any. -/
def resolvedVideoId (o : FetchOutcome) : Option String :=
  match o with
  | FetchOutcome.resolvedPinned a => some a.videoId
  | FetchOutcome.resolvedSearch v => some v.id
  | FetchOutcome.noneFound => none

/-- A media item as set by setMediaItems (VideoPlayer.tsx lines 160-171 and
189-200); the embed URL is a pure function of the id (youtube.ts, out of
scope) and is omitted. -/
structure MediaItem where
  id : String
  title : String
  thumbnail : String
deriving DecidableEq

/-- The media items a completed fetch applies for its captured track. -/
def mediaItemsFor (env : DiscoveryEnv) (blacklist : List String)
    (track : Track) : List MediaItem :=
  match (fetchVideoForTrack env blacklist track).outcome with
  | FetchOutcome.resolvedPinned a =>
    [{ id := a.videoId, title := a.videoTitle, thumbnail := a.videoThumbnail }]
  | FetchOutcome.resolvedSearch v =>
    [{ id := v.id, title := v.title, thumbnail := v.thumbnailUrl }]
  | FetchOutcome.noneFound => []

/-- The VideoPlayer component state relevant to the stale-result question:
the current track, the applied media items, and the captured track argument
of every still-outstanding fetchVideoForTrack call (the closure keeps only
the track parameter; no identity token is compared on arrival). -/
structure PlayerState where
  currentTrack : Option Track
  mediaItems : List MediaItem
  pending : List Track
deriving DecidableEq

/-- A track change: the useEffect of VideoPlayer.tsx lines 217-220 sets the
current track and starts fetchVideoForTrack(track), which suspends at its
first await, leaving the call outstanding. -/
def startFetch (st : PlayerState) (t : Track) : PlayerState :=
  { st with currentTrack := some t, pending := st.pending ++ [t] }

/-- Resolution of the i-th outstanding call: the code after the awaits of
fetchVideoForTrack (VideoPlayer.tsx lines 159-200) runs setMediaItems with
the result computed for the captured track argument, with no check against
the current track identity. -/
def resolvePending (env : DiscoveryEnv) (blacklist : List String)
    (st : PlayerState) (i : Nat) : PlayerState :=
  match st.pending.get? i with
  | none => st
  | some t =>
    { st with mediaItems := mediaItemsFor env blacklist t,
              pending := st.pending.eraseIdx i }

/-! Concrete configurations, tracks and stores used to instantiate the
theorems below.  cfgD is the default configuration of trackDataCache.ts
lines 70-72 (maxSize 2000, metadata TTL 10 minutes, like status TTL
5 minutes); cfg2 shrinks maxSize to 2 for the eviction scenarios. -/

def cfgD : TrackCacheConfig :=
  { maxSize := 2000, metadataTtlMs := 600000, likeStatusTtlMs := 300000 }

def cfg2 : TrackCacheConfig :=
  { maxSize := 2, metadataTtlMs := 600000, likeStatusTtlMs := 300000 }

def trackA : Track :=
  { id := "A", name := "Song A", artists := "Artist A", album := "Album A",
    duration_ms := 200000, uri := "spotify-a" }

def trackB : Track :=
  { id := "B", name := "Song B", artists := "Artist B", album := "Album B",
    duration_ms := 210000, uri := "spotify-b" }

def trackC : Track :=
  { id := "C", name := "Song C", artists := "Artist C", album := "Album C",
    duration_ms := 220000, uri := "spotify-c" }

def trackY : Track :=
  { id := "Y", name := "Song Y", artists := "Artist Y", album := "Album Y",
    duration_ms := 230000, uri := "spotify-y" }

def trackZ : Track :=
  { id := "Z", name := "Song Z", artists := "Artist Z", album := "Album Z",
    duration_ms := 240000, uri := "spotify-z" }

def keyX : String := "X"

/-- C1 scenario store: metadata written at t = 100000 (cacheExpires
700000), like status refreshed at t = 580000 (live until 880000). -/
def storeC1 : CacheStore :=
  setLikeStatus cfgD (setTrack cfgD [] 100000 trackA) 580000 trackA.id true

/-- Scenario A store: maxSize 2; insert A at t 1000, B at t 2000, C at
t 3000, no intervening reads. -/
def storeA3 : CacheStore :=
  setTrack cfg2 (setTrack cfg2 (setTrack cfg2 [] 1000 trackA) 2000 trackB) 3000 trackC

/-- Scenario B store: both facets populated at t = 60000 with the default
TTLs (metadata 10 min, status 5 min). -/
def storeB : CacheStore :=
  setLikeStatus cfgD (setTrack cfgD [] 60000 trackA) 60000 trackA.id true

/-- C5 scenario store: a status-only entry cached by setLikeStatus at
t = 1000000; its overall cacheExpires is 1000000 + likeStatusTtlMs. -/
def storeC5 : CacheStore :=
  setLikeStatus cfgD [] 1000000 trackA.id true

/-- C10 scenario: unexpired metadata entry Y written at t 500, then a
status-only entry X at t 1000; at t 400000 X is expired on every facet
while Y is live. -/
def storeYX : CacheStore :=
  setLikeStatus cfg2 (setTrack cfg2 [] 500 trackY) 1000 keyX true

/-- C10 scenario after inserting Z at t 400000 with maxSize 2: the LRU
pass runs against a store still containing the fully expired X. -/
def storeYXZ : CacheStore :=
  setTrack cfg2 storeYX 400000 trackZ

/-- The record the C10 scenario holds under key X (the minimal
setLikeStatus record of trackDataCache.ts lines 256-267). -/
def entryX : CachedTrack :=
  { id := "X", name := "", artists := "", album := "", duration_ms := 0,
    uri := "", isLiked := some true, likeStatusChecked := some 1000,
    cacheExpires := some 301000, lastAccessed := some 1000 }

/-- The record the C10 scenario holds under key Y. -/
def entryY : CachedTrack :=
  { id := "Y", name := "Song Y", artists := "Artist Y", album := "Album Y",
    duration_ms := 230000, uri := "spotify-y",
    metadataFetched := some 500, cacheExpires := some 600500,
    lastAccessed := some 500 }

def assocX : SavedAssociation :=
  { videoId := "X", videoTitle := "Pinned video X", videoThumbnail := "thumb-x" }

/-- Environment in which the saved-association lookup answers with a video
whose id is on the blacklist. -/
def envPinned : DiscoveryEnv :=
  { savedAssociation := fun _ => some assocX, rawSearch := fun _ => [] }

def vidX : VideoResult :=
  { id := "X", title := "Video X", thumbnailUrl := "thumb-x" }

def vidY : VideoResult :=
  { id := "Y", title := "Video Y", thumbnailUrl := "thumb-y" }

/-- Environment with no saved association and raw search results [X, Y]
(scenario D of the spec). -/
def envSearch : DiscoveryEnv :=
  { savedAssociation := fun _ => none, rawSearch := fun _ => [vidX, vidY] }

def vidForA : VideoResult :=
  { id := "VA", title := "Video for A", thumbnailUrl := "thumb-va" }

def vidForB : VideoResult :=
  { id := "VB", title := "Video for B", thumbnailUrl := "thumb-vb" }

/-- Environment for the stale-result scenario: no saved associations; the
search finds vidForA for track A and vidForB for anything else. -/
def envRace : DiscoveryEnv :=
  { savedAssociation := fun _ => none,
    rawSearch := fun t => if t.id == trackA.id then [vidForA] else [vidForB] }

def st0 : PlayerState :=
  { currentTrack := none, mediaItems := [], pending := [] }

/-- The race run: start a fetch for A, change the track to B (starting a
fetch for B), let the B call resolve first, then let the superseded A call
resolve last. -/
def stRace : PlayerState :=
  resolvePending envRace []
    (resolvePending envRace [] (startFetch (startFetch st0 trackA) trackB) 1) 0

/-- The record storeC1 holds under key A. -/
def entryC1 : CachedTrack :=
  { id := "A", name := "Song A", artists := "Artist A", album := "Album A",
    duration_ms := 200000, uri := "spotify-a",
    isLiked := some true, likeStatusChecked := some 580000,
    metadataFetched := some 100000, cacheExpires := some 700000,
    lastAccessed := some 580000 }

/-- The record produced by setTrack cfgD storeC5 1100000 trackA: the fresh
metadata clocks plus the preserved unexpired like status of storeC5. -/
def entryC7 : CachedTrack :=
  { id := "A", name := "Song A", artists := "Artist A", album := "Album A",
    duration_ms := 200000, uri := "spotify-a",
    isLiked := some true, likeStatusChecked := some 1000000,
    metadataFetched := some 1100000, cacheExpires := some 1700000,
    lastAccessed := some 1100000 }

/-- A store holding only metadata for track A, fetched at t = 60000. -/
def storeMeta : CacheStore :=
  setTrack cfgD [] 60000 trackA

/-- The record storeMeta holds under key A. -/
def entryMeta : CachedTrack :=
  { id := "A", name := "Song A", artists := "Artist A", album := "Album A",
    duration_ms := 200000, uri := "spotify-a",
    metadataFetched := some 60000, cacheExpires := some 660000,
    lastAccessed := some 60000 }

/-- The record after setLikeStatus cfgD storeMeta 70000 A true: only the
like status fields and lastAccessed change. -/
def entryMetaLiked : CachedTrack :=
  { id := "A", name := "Song A", artists := "Artist A", album := "Album A",
    duration_ms := 200000, uri := "spotify-a",
    isLiked := some true, likeStatusChecked := some 70000,
    metadataFetched := some 60000, cacheExpires := some 660000,
    lastAccessed := some 70000 }

/-- A metadata-only partial update (a truthy name, no like status). -/
def updName : TrackUpdates :=
  { name := some ("New Name") }

/-- The pre-eviction store of the C10 insertion: storeYX with the record
for Z already written, before enforceMaxSize runs. -/
def storePre : CacheStore :=
  mapSet storeYX trackZ.id (setTrackRecord cfg2 storeYX 400000 trackZ)

/-! ### Lemmas about the association list model of the Map -/

theorem find?_map_replace (s : CacheStore) (k : String) (v : CachedTrack) :
    (s.map (fun p => if p.1 == k then (k, v) else p)).find? (fun p => p.1 == k)
      = if s.any (fun p => p.1 == k) then some (k, v) else none := by
  induction s with
  | nil => rfl
  | cons q rest ih =>
    rw [List.map_cons, List.any_cons]
    by_cases h : (q.1 == k) = true
    · rw [if_pos h, List.find?_cons_of_pos _ (by simp), h, Bool.true_or, if_pos rfl]
    · have h2 : (q.1 == k) = false := by
        revert h
        cases q.1 == k <;> simp
      rw [if_neg h,
        List.find?_cons_of_neg (p := fun x : String × CachedTrack => x.1 == k) (a := q) _ h,
        ih, h2, Bool.false_or]

theorem mapGet_mapSet_self (s : CacheStore) (k : String) (v : CachedTrack) :
    mapGet (mapSet s k v) k = some v := by
  unfold mapGet mapSet
  by_cases h : s.any (fun p => p.1 == k) = true
  · rw [if_pos h, find?_map_replace, if_pos h]
    rfl
  · rw [if_neg h, List.find?_append]
    have hnone : s.find? (fun p => p.1 == k) = none := by
      rw [List.find?_eq_none]
      intro x hx hpx
      exact h (List.any_eq_true.mpr ⟨x, hx, hpx⟩)
    rw [hnone]
    simp

theorem mem_of_mapGet (s : CacheStore) (k : String) (v : CachedTrack)
    (h : mapGet s k = some v) : (k, v) ∈ s := by
  unfold mapGet at h
  cases hf : s.find? (fun p => p.1 == k) with
  | none => rw [hf] at h; exact absurd h (by simp)
  | some q =>
    rw [hf] at h
    have hq : q ∈ s := List.mem_of_find?_eq_some hf
    have hk := List.find?_some hf
    have hk2 : q.1 = k := eq_of_beq hk
    have hv : q.2 = v := by simpa using h
    have hqe : q = (k, v) := by
      cases q
      simp_all
    rw [hqe] at hq
    exact hq

theorem mapGet_isSome_of_mem (s : CacheStore) (k : String) (v : CachedTrack)
    (h : (k, v) ∈ s) : (mapGet s k).isSome = true := by
  have h2 : (s.find? (fun p => p.1 == k)).isSome = true := by
    rw [List.find?_isSome]
    exact ⟨(k, v), h, by simp⟩
  obtain ⟨q, hq⟩ := Option.isSome_iff_exists.mp h2
  unfold mapGet
  rw [hq]
  rfl

theorem key_unique (s : CacheStore) (k : String) (v w : CachedTrack)
    (hnd : (s.map Prod.fst).Nodup) (hv : (k, v) ∈ s) (hw : (k, w) ∈ s) : v = w := by
  induction s with
  | nil => cases hv
  | cons q rest ih =>
    rw [List.map_cons, List.nodup_cons] at hnd
    rcases List.mem_cons.mp hv with hv1 | hv2
    · rcases List.mem_cons.mp hw with hw1 | hw2
      · exact congrArg Prod.snd (hv1.trans hw1.symm)
      · exfalso
        apply hnd.1
        rw [← hv1]
        exact List.mem_map.mpr ⟨(k, w), hw2, rfl⟩
    · rcases List.mem_cons.mp hw with hw1 | hw2
      · exfalso
        apply hnd.1
        rw [← hw1]
        exact List.mem_map.mpr ⟨(k, v), hv2, rfl⟩
      · exact ih hnd.2 hv2 hw2

theorem mapSet_pair_eq (s : CacheStore) (k : String) (v : CachedTrack)
    (q : String × CachedTrack) (hq : q ∈ mapSet s k v) (hk : q.1 = k) : q = (k, v) := by
  unfold mapSet at hq
  by_cases h : s.any (fun p => p.1 == k) = true
  · rw [if_pos h] at hq
    obtain ⟨p, hp, hpq⟩ := List.mem_map.mp hq
    by_cases h2 : (p.1 == k) = true
    · rw [if_pos h2] at hpq
      exact hpq.symm
    · rw [if_neg h2] at hpq
      rw [← hpq] at hk
      exact absurd (by simp [hk]) h2
  · rw [if_neg h] at hq
    rcases List.mem_append.mp hq with h1 | h2
    · exfalso
      exact h (List.any_eq_true.mpr ⟨q, h1, by simp [hk]⟩)
    · simpa using h2

theorem mapGet_filter_of_nodup (s : CacheStore) (p : String × CachedTrack → Bool)
    (k : String) (v : CachedTrack)
    (hnd : (s.map Prod.fst).Nodup) (hmem : (k, v) ∈ s) :
    mapGet (s.filter p) k = if p (k, v) = true then some v else none := by
  by_cases hp : p (k, v) = true
  · rw [if_pos hp]
    have hmf : (k, v) ∈ s.filter p := List.mem_filter.mpr ⟨hmem, hp⟩
    have hs : (mapGet (s.filter p) k).isSome = true := mapGet_isSome_of_mem _ k v hmf
    obtain ⟨w, hw⟩ := Option.isSome_iff_exists.mp hs
    have hwm : (k, w) ∈ s := (List.mem_filter.mp (mem_of_mapGet _ k w hw)).1
    rw [hw, key_unique s k w v hnd hwm hmem]
  · rw [if_neg hp]
    cases hg : mapGet (s.filter p) k with
    | none => rfl
    | some w =>
      exfalso
      have hmfw := mem_of_mapGet _ k w hg
      have hwm : (k, w) ∈ s := (List.mem_filter.mp hmfw).1
      have hpw : p (k, w) = true := (List.mem_filter.mp hmfw).2
      rw [key_unique s k w v hnd hwm hmem] at hpw
      exact hp hpw

theorem isExpired_facet (cfg : TrackCacheConfig) (s : CacheStore) (now : Nat)
    (k : String) (c : CachedTrack) (hk : k ≠ "") (h : mapGet s k = some c) :
    isExpired cfg s now k (some DataType.metadata) = metadataExpiredAt cfg now c
    ∧ isExpired cfg s now k (some DataType.likeStatus) = likeStatusExpiredAt cfg now c
    ∧ isExpired cfg s now k none = overallExpiredAt now c := by
  refine ⟨?_, ?_, ?_⟩ <;>
    (unfold isExpired; rw [if_neg hk, h])

/-! ### Lemmas about enforceMaxSize -/

theorem foldl_delete_eq_filter (victims : List (String × CachedTrack)) :
    ∀ s : CacheStore,
      victims.foldl (fun acc p => mapDelete acc p.1) s
        = s.filter (fun q => !((victims.map Prod.fst).contains q.1)) := by
  induction victims with
  | nil =>
    intro s
    rw [List.foldl_nil]
    rw [List.filter_eq_self.mpr]
    intro a _
    rfl
  | cons p ps ih =>
    intro s
    rw [List.foldl_cons, ih (mapDelete s p.1)]
    unfold mapDelete
    rw [List.filter_filter]
    apply List.filter_congr
    intro a _
    rw [List.map_cons, List.contains_cons, Bool.not_or]
    show (!(List.map Prod.fst ps).contains a.1 && !(a.1 == p.1))
        = (!(a.1 == p.1) && !(List.map Prod.fst ps).contains a.1)
    exact Bool.and_comm _ _

theorem enforceMaxSize_eq (cfg : TrackCacheConfig) (s : CacheStore)
    (h : ¬ s.length ≤ cfg.maxSize) :
    enforceMaxSize cfg s
      = s.filter (fun q =>
          !((((List.insertionSort laLE s).take (s.length - cfg.maxSize)).map Prod.fst).contains q.1)) := by
  unfold enforceMaxSize
  rw [if_neg h]
  exact foldl_delete_eq_filter _ s

theorem enforceMaxSize_subset (cfg : TrackCacheConfig) (s : CacheStore) :
    ∀ q ∈ enforceMaxSize cfg s, q ∈ s := by
  by_cases h : s.length ≤ cfg.maxSize
  · unfold enforceMaxSize
    rw [if_pos h]
    exact fun q hq => hq
  · rw [enforceMaxSize_eq cfg s h]
    exact fun q hq => (List.mem_filter.mp hq).1

theorem enforceMaxSize_length_le (cfg : TrackCacheConfig) (s : CacheStore) :
    (enforceMaxSize cfg s).length ≤ cfg.maxSize := by
  by_cases h : s.length ≤ cfg.maxSize
  · unfold enforceMaxSize
    rw [if_pos h]
    exact h
  · rw [enforceMaxSize_eq cfg s h]
    have hperm : List.Perm (List.insertionSort laLE s) s := List.perm_insertionSort laLE s
    set sorted := List.insertionSort laLE s with hsorted
    set tr := s.length - cfg.maxSize with htr
    set keep := fun q : String × CachedTrack =>
      !(((sorted.take tr).map Prod.fst).contains q.1) with hkeep
    have h1 : (s.filter keep).length = (sorted.filter keep).length :=
      ((hperm.filter keep).length_eq).symm
    rw [h1]
    have h2 : (sorted.take tr).filter keep = [] := by
      rw [List.filter_eq_nil_iff]
      intro a ha hka
      have hmem : a.1 ∈ (sorted.take tr).map Prod.fst :=
        List.mem_map.mpr ⟨a, ha, rfl⟩
      have hc : ((sorted.take tr).map Prod.fst).contains a.1 = true :=
        List.elem_iff.mpr hmem
      have h0 : keep a = !(((sorted.take tr).map Prod.fst).contains a.1) := rfl
      rw [h0, hc] at hka
      simp at hka
    have h3 : sorted.filter keep
        = (sorted.take tr).filter keep ++ (sorted.drop tr).filter keep := by
      rw [← List.filter_append, List.take_append_drop]
    rw [h3, h2, List.nil_append]
    have h4 : ((sorted.drop tr).filter keep).length ≤ (sorted.drop tr).length :=
      List.length_filter_le keep (sorted.drop tr)
    have h5 : (sorted.drop tr).length = sorted.length - tr := List.length_drop tr sorted
    have h6 : sorted.length = s.length := hperm.length_eq
    omega

theorem enforce_evicted_minimal (cfg : TrackCacheConfig) (s : CacheStore)
    (k : String) (v : CachedTrack) (k2 : String) (v2 : CachedTrack)
    (hWF : WF s) (hmem : (k, v) ∈ s)
    (hgone : hasTrack (enforceMaxSize cfg s) k = false)
    (hkeep : mapGet (enforceMaxSize cfg s) k2 = some v2) :
    laKey (k, v) ≤ laKey (k2, v2) := by
  have hk : k ≠ "" := hWF.2 (k, v) hmem
  by_cases h : s.length ≤ cfg.maxSize
  · exfalso
    unfold enforceMaxSize at hgone
    rw [if_pos h] at hgone
    unfold hasTrack at hgone
    rw [if_neg hk, mapGet_isSome_of_mem s k v hmem] at hgone
    cases hgone
  · have hperm : List.Perm (List.insertionSort laLE s) s := List.perm_insertionSort laLE s
    have hsorted : List.Sorted laLE (List.insertionSort laLE s) :=
      List.sorted_insertionSort laLE s
    rw [enforceMaxSize_eq cfg s h] at hgone hkeep
    set sorted := List.insertionSort laLE s with hsdef
    set tr := s.length - cfg.maxSize with htr
    set keep := fun q : String × CachedTrack =>
      !(((sorted.take tr).map Prod.fst).contains q.1) with hkeepdef
    have hkv : keep (k, v) = false := by
      by_contra hcon
      have hkv2 : keep (k, v) = true := by
        revert hcon
        cases keep (k, v) <;> simp
      have hmf : (k, v) ∈ s.filter keep := List.mem_filter.mpr ⟨hmem, hkv2⟩
      unfold hasTrack at hgone
      rw [if_neg hk, mapGet_isSome_of_mem _ k v hmf] at hgone
      cases hgone
    have hvic : (k, v) ∈ sorted.take tr := by
      have hc : ((sorted.take tr).map Prod.fst).contains k = true := by
        have h0 : keep (k, v) = !(((sorted.take tr).map Prod.fst).contains k) := rfl
        rw [h0] at hkv
        revert hkv
        cases ((sorted.take tr).map Prod.fst).contains k <;> simp
      have hkm : k ∈ (sorted.take tr).map Prod.fst := List.elem_iff.mp hc
      obtain ⟨q, hq, hq1⟩ := List.mem_map.mp hkm
      have hqs : q ∈ s := hperm.mem_iff.mp ((List.take_sublist tr sorted).mem hq)
      have hqv : q.2 = v := by
        have : (q.1, q.2) ∈ s := by
          cases q
          exact hqs
        rw [hq1] at this
        exact key_unique s k q.2 v hWF.1 this hmem
      have hqe : q = (k, v) := by
        cases q
        simp_all
      rw [← hqe]
      exact hq
    have hsurv : (k2, v2) ∈ sorted.drop tr := by
      have hmf := mem_of_mapGet _ k2 v2 hkeep
      have hins : (k2, v2) ∈ s := (List.mem_filter.mp hmf).1
      have hkeep2 : keep (k2, v2) = true := (List.mem_filter.mp hmf).2
      have hinsorted : (k2, v2) ∈ sorted := hperm.mem_iff.mpr hins
      rcases List.mem_append.mp (by rw [List.take_append_drop tr sorted] ; exact hinsorted :
          (k2, v2) ∈ sorted.take tr ++ sorted.drop tr) with h1 | h2
      · exfalso
        have hmem2 : k2 ∈ (sorted.take tr).map Prod.fst :=
          List.mem_map.mpr ⟨(k2, v2), h1, rfl⟩
        have hc2 : ((sorted.take tr).map Prod.fst).contains k2 = true :=
          List.elem_iff.mpr hmem2
        have h0 : keep (k2, v2) = !(((sorted.take tr).map Prod.fst).contains k2) := rfl
        rw [h0, hc2] at hkeep2
        simp at hkeep2
      · exact h2
    exact hsorted.rel_of_mem_take_of_mem_drop hvic hsurv

/-- Identification of the surviving record after a set followed by the
eviction pass: any record found under the written key is the record that
was written. -/
theorem mapGet_enforce_mapSet (cfg : TrackCacheConfig) (s : CacheStore)
    (k : String) (v r : CachedTrack)
    (h : mapGet (enforceMaxSize cfg (mapSet s k v)) k = some r) : r = v := by
  have hmem : (k, r) ∈ enforceMaxSize cfg (mapSet s k v) := mem_of_mapGet _ k r h
  have hmem2 : (k, r) ∈ mapSet s k v := enforceMaxSize_subset cfg _ _ hmem
  have := mapSet_pair_eq s k v (k, r) hmem2 rfl
  exact congrArg Prod.snd this

/-! ### Characterization of the two reads at a present key -/

theorem getLikeStatus_eq (cfg : TrackCacheConfig) (s : CacheStore) (now : Nat)
    (k : String) (entry : CachedTrack) (hk : k ≠ "") (hget : mapGet s k = some entry) :
    getLikeStatus cfg s now k
      = (if likeStatusExpiredAt cfg now entry = true then (none, s)
         else (entry.isLiked, mapSet s k { entry with lastAccessed := some now })) := by
  unfold getLikeStatus
  rw [if_neg hk, hget, (isExpired_facet cfg s now k entry hk hget).2.1]

theorem getTrack_eq (cfg : TrackCacheConfig) (s : CacheStore) (now : Nat)
    (k : String) (entry : CachedTrack) (hk : k ≠ "") (hget : mapGet s k = some entry) :
    getTrack cfg s now k
      = (if overallExpiredAt now { entry with lastAccessed := some now } = true
         then (none, mapDelete (mapSet s k { entry with lastAccessed := some now }) k)
         else (some { entry with lastAccessed := some now },
               mapSet s k { entry with lastAccessed := some now })) := by
  unfold getTrack
  rw [if_neg hk, hget]
  dsimp only
  have hfac := (isExpired_facet cfg (mapSet s k { entry with lastAccessed := some now }) now k
      { entry with lastAccessed := some now } hk (mapGet_mapSet_self s k _)).2.2
  rw [hfac]

/-! ### The claims -/

/-- Claim C1, counterexample: with the default TTLs, write metadata for A at
t 100000 and its like status at t 580000; at sweep time t 760000 the like
status facet is NOT expired (live until 880000) while the metadata facet is,
and cleanup nevertheless removes the entry (its overall cacheExpires, set by
the metadata write to 700000, has passed).  This refutes the claim that an
entry with one expired facet and one still-unexpired facet is never removed
by cleanup. -/
theorem cleanup_partial_expiry_counterexample :
    isExpired cfgD storeC1 760000 trackA.id (some DataType.likeStatus) = false
    ∧ isExpired cfgD storeC1 760000 trackA.id (some DataType.metadata) = true
    ∧ hasTrack (cleanup cfgD storeC1 760000).1 trackA.id = false := by
  refine ⟨by decide, by decide, by decide⟩

/-- Claim C1 (amended): cleanup removes a stored entry if and only if the
entry has an overall cacheExpires timestamp that has passed, or both of its
facets are expired at sweep time.  Since cacheExpires follows the metadata
clock for entries written by setTrack, an entry whose metadata facet is
expired can be removed while its like status facet is still live; an entry
whose like status alone is expired is kept. -/
theorem cleanup_removes_iff (cfg : TrackCacheConfig) (s : CacheStore) (now : Nat)
    (k : String) (entry : CachedTrack) (hWF : WF s) (hget : mapGet s k = some entry) :
    (hasTrack (cleanup cfg s now).1 k = false ↔
      (overallExpiredAt now entry = true ∨
       (metadataExpiredAt cfg now entry = true ∧ likeStatusExpiredAt cfg now entry = true))) := by
  have hmem : (k, entry) ∈ s := mem_of_mapGet s k entry hget
  have hk : k ≠ "" := hWF.2 (k, entry) hmem
  have hfacets := isExpired_facet cfg s now k entry hk hget
  have hremove : cleanupRemove cfg s now (k, entry)
      = (overallExpiredAt now entry
          || (metadataExpiredAt cfg now entry && likeStatusExpiredAt cfg now entry)) := by
    unfold cleanupRemove
    rw [hfacets.1, hfacets.2.1]
  have hfilter := mapGet_filter_of_nodup s (fun p => !(cleanupRemove cfg s now p)) k entry
    hWF.1 hmem
  have hcleanup : (cleanup cfg s now).1 = s.filter (fun p => !(cleanupRemove cfg s now p)) := rfl
  rw [hcleanup]
  unfold hasTrack
  rw [if_neg hk, hfilter]
  cases ho : overallExpiredAt now entry <;>
    cases hm : metadataExpiredAt cfg now entry <;>
      cases hl : likeStatusExpiredAt cfg now entry <;>
        simp [hremove, ho, hm, hl]

/-- Witness for the amended C1 at the counterexample store. -/
theorem cleanup_removes_iff_witness :
    (hasTrack (cleanup cfgD storeC1 760000).1 trackA.id = false ↔
      (overallExpiredAt 760000 entryC1 = true ∨
       (metadataExpiredAt cfgD 760000 entryC1 = true
        ∧ likeStatusExpiredAt cfgD 760000 entryC1 = true))) :=
  cleanup_removes_iff cfgD storeC1 760000 trackA.id entryC1 (by decide) (by decide)

/-- Claim C9: a persisted snapshot that fails to parse on construction is
discarded, the store starts empty, and no error is propagated (the loaders
are total and return the empty store on the error branch), both for the
track cache snapshot and for the blacklist snapshot. -/
theorem snapshot_parse_failure_discarded (e1 e2 : String) :
    loadFromLocalStorage (some (Except.error e1)) = []
    ∧ loadBlacklist (some (Except.error e2)) = [] :=
  ⟨rfl, rfl⟩

/-- Claim C10: size counts stored entries with no regard to expiry.  In the
concrete run: the fully expired status-only entry X still counts toward the
maxSize bound, so inserting Z evicts the unexpired entry Y (smallest
lastAccessed) while the expired X survives; a getTrack on X then removes it,
and a cleanup sweep would also remove it (and keep Y). -/
theorem size_counts_expired_entries :
    (∀ s : CacheStore, size s = s.length)
    ∧ mapGet storeYX keyX = some entryX
    ∧ mapGet storeYX trackY.id = some entryY
    ∧ metadataExpiredAt cfg2 400000 entryX = true
    ∧ likeStatusExpiredAt cfg2 400000 entryX = true
    ∧ overallExpiredAt 400000 entryX = true
    ∧ overallExpiredAt 400000 entryY = false
    ∧ metadataExpiredAt cfg2 400000 entryY = false
    ∧ size storeYX = 2
    ∧ hasTrack storeYXZ trackY.id = false
    ∧ hasTrack storeYXZ keyX = true
    ∧ size storeYXZ = 2
    ∧ (getTrack cfg2 storeYXZ 400001 keyX).1 = none
    ∧ hasTrack (getTrack cfg2 storeYXZ 400001 keyX).2 keyX = false
    ∧ hasTrack (cleanup cfg2 storeYX 400000).1 keyX = false
    ∧ hasTrack (cleanup cfg2 storeYX 400000).1 trackY.id = true := by
  refine ⟨fun s => rfl, ?_, ?_, ?_, ?_, ?_, ?_, ?_, ?_, ?_, ?_, ?_, ?_, ?_, ?_, ?_⟩ <;> decide

/-- Claim C5 (code bug): a status-only entry cached at t 1000000 carries a
stored status value (isLiked = some true), yet when the upstream check
fails with a network error at t 1600000 the call surfaces the error instead
of returning the cached boolean: the fallback reads getTrack, which refuses
(and deletes) the entry because its overall cacheExpires (1300000) has
passed.  The repository test (should use stale cache on API failure)
expects the cached true here. -/
theorem stale_fallback_unreachable :
    hasTrack storeC5 trackA.id = true
    ∧ (mapGet storeC5 trackA.id).bind CachedTrack.isLiked = some true
    ∧ (checkTrackSaved cfgD storeC5 1600000 trackA.id
        (ApiResponse.networkFailure ("Network error"))).1 = Except.error ("Network error") := by
  refine ⟨by decide, by decide, rfl⟩

/-- Claim C2: after every set-type operation with a valid key, size stays
within maxSize; when eviction runs, every evicted entry has a lastAccessed
no larger than that of every surviving entry (LRU order, with no regard to
remaining TTL); and in scenario A (maxSize 2, insert A then B then C with no
intervening reads) A is evicted and B and C remain. -/
theorem lru_bound_and_eviction :
    (∀ (cfg : TrackCacheConfig) (s : CacheStore) (now : Nat) (track : Track),
       track.id ≠ "" → size (setTrack cfg s now track) ≤ cfg.maxSize)
    ∧ (∀ (cfg : TrackCacheConfig) (s : CacheStore) (now : Nat) (trackId : String)
         (liked : Bool),
       trackId ≠ "" → size (setLikeStatus cfg s now trackId liked) ≤ cfg.maxSize)
    ∧ (∀ (cfg : TrackCacheConfig) (s : CacheStore) (k : String) (v : CachedTrack)
         (k2 : String) (v2 : CachedTrack),
       WF s → (k, v) ∈ s → hasTrack (enforceMaxSize cfg s) k = false →
       mapGet (enforceMaxSize cfg s) k2 = some v2 →
       laKey (k, v) ≤ laKey (k2, v2))
    ∧ (hasTrack storeA3 trackA.id = false ∧ hasTrack storeA3 trackB.id = true
       ∧ hasTrack storeA3 trackC.id = true ∧ size storeA3 = 2) := by
  refine ⟨?_, ?_, ?_, ?_⟩
  · intro cfg s now track hid
    unfold setTrack
    rw [if_neg hid]
    exact enforceMaxSize_length_le cfg _
  · intro cfg s now trackId liked hid
    unfold setLikeStatus
    rw [if_neg hid]
    exact enforceMaxSize_length_le cfg _
  · exact fun cfg s k v k2 v2 hWF hmem hgone hkeep =>
      enforce_evicted_minimal cfg s k v k2 v2 hWF hmem hgone hkeep
  · exact ⟨by decide, by decide, by decide, by decide⟩

/-- Witness for C2: the bound after concrete sets, and the eviction
minimality at the concrete pre-eviction store of the C10 scenario (Y, with
the smallest lastAccessed, is the evicted entry; X survives). -/
theorem lru_bound_and_eviction_witness :
    size (setTrack cfg2 storeYX 400000 trackZ) ≤ 2
    ∧ size (setLikeStatus cfg2 [] 1000 keyX true) ≤ 2
    ∧ laKey (trackY.id, entryY) ≤ laKey (keyX, entryX) :=
  ⟨lru_bound_and_eviction.1 cfg2 storeYX 400000 trackZ (by decide),
   lru_bound_and_eviction.2.1 cfg2 [] 1000 keyX true (by decide),
   lru_bound_and_eviction.2.2.1 cfg2 storePre trackY.id entryY keyX entryX
     (by decide) (by decide) (by decide) (by decide)⟩

/-- Claim C3: at a stored entry whose facet timestamps are set (and nonzero,
as real Date.now values are), getLikeStatus returns the stored status
exactly when now has not passed likeStatusChecked + likeStatusTtlMs, and
getTrack returns the record exactly when now has not passed its overall
cacheExpires.  Instantiated by the witness at scenario B (metadata TTL
10 min, status TTL 5 min, both facets populated at t 60000, read at
t 420000 = six minutes later): the status read is null while the track read
still hits. -/
theorem facet_read_iff_unexpired (cfg : TrackCacheConfig) (s : CacheStore) (now : Nat)
    (k : String) (b : Bool) (c e : Nat)
    (hk : k ≠ "")
    (hliked : (mapGet s k).bind CachedTrack.isLiked = some b)
    (hchecked : (mapGet s k).bind CachedTrack.likeStatusChecked = some c)
    (hc : c ≠ 0)
    (hexp : (mapGet s k).bind CachedTrack.cacheExpires = some e)
    (he : e ≠ 0) :
    ((getLikeStatus cfg s now k).1 = some b ↔ now ≤ c + cfg.likeStatusTtlMs)
    ∧ ((getTrack cfg s now k).1.isSome = true ↔ now ≤ e) := by
  cases hget : mapGet s k with
  | none =>
    rw [hget] at hliked
    cases hliked
  | some entry =>
    rw [hget] at hliked hchecked hexp
    have hliked2 : entry.isLiked = some b := hliked
    have hchecked2 : entry.likeStatusChecked = some c := hchecked
    have hexp2 : entry.cacheExpires = some e := hexp
    have hc0 : (c == 0) = false := by
      cases hcc : c == 0 with
      | false => rfl
      | true => exact absurd (eq_of_beq hcc) hc
    have he0 : (e == 0) = false := by
      cases hee : e == 0 with
      | false => rfl
      | true => exact absurd (eq_of_beq hee) he
    constructor
    · rw [getLikeStatus_eq cfg s now k entry hk hget]
      have hlse : likeStatusExpiredAt cfg now entry
          = decide (now > c + cfg.likeStatusTtlMs) := by
        unfold likeStatusExpiredAt
        rw [hchecked2]
        dsimp only
        rw [hc0, Bool.false_or]
      rw [hlse]
      by_cases hle : now ≤ c + cfg.likeStatusTtlMs
      · rw [decide_eq_false (by omega), if_neg (by simp)]
        simp [hliked2, hle]
      · rw [decide_eq_true (by omega), if_pos rfl]
        simp [hle]
    · rw [getTrack_eq cfg s now k entry hk hget]
      have hoe : overallExpiredAt now { entry with lastAccessed := some now }
          = decide (now > e) := by
        unfold overallExpiredAt
        have hce : ({ entry with lastAccessed := some now } : CachedTrack).cacheExpires
            = some e := hexp2
        rw [hce]
        dsimp only
        rw [he0, Bool.not_false, Bool.true_and]
      rw [hoe]
      by_cases hle : now ≤ e
      · rw [decide_eq_false (by omega), if_neg (by simp)]
        simp [hle]
      · rw [decide_eq_true (by omega), if_pos rfl]
        simp [hle]

/-- Witness for C3: scenario B. -/
theorem facet_read_iff_unexpired_witness :
    ((getLikeStatus cfgD storeB 420000 trackA.id).1 = some true
      ↔ 420000 ≤ 60000 + cfgD.likeStatusTtlMs)
    ∧ ((getTrack cfgD storeB 420000 trackA.id).1.isSome = true ↔ 420000 ≤ 660000) :=
  facet_read_iff_unexpired cfgD storeB 420000 trackA.id true 60000 660000
    (by decide) (by decide) (by decide) (by decide) (by decide) (by decide)

/-- Claim C4, counterexample: a discovery call that finds a saved (pinned)
association resolves to it without consulting the exclusion set, so the
Resolved candidate can be a member of the exclusion set at call time: here
the pinned video X is returned while X is on the blacklist.  This refutes
the unconditional no-blacklisted-result claim. -/
theorem pinned_blacklisted_counterexample :
    resolvedVideoId (fetchVideoForTrack envPinned [keyX] trackA).outcome = some keyX
    ∧ ([keyX].contains keyX) = true :=
  ⟨rfl, rfl⟩

/-- Claim C4 (amended): for every discovery call that reaches the search
(no saved association for the track), the full current exclusion set is
passed as the excluded ids, and a candidate resolved from the search is
never a member of the exclusion set as it stood at call time.  A pinned
association short-circuits without an exclusion check and may resolve to a
blacklisted id (see the counterexample). -/
theorem search_excludes_blacklist (env : DiscoveryEnv) (blacklist : List String)
    (track : Track) (hpin : env.savedAssociation track = none) :
    (fetchVideoForTrack env blacklist track).searchedExcludeIds = some blacklist
    ∧ ∀ v, (fetchVideoForTrack env blacklist track).outcome = FetchOutcome.resolvedSearch v →
        blacklist.contains v.id = false := by
  unfold fetchVideoForTrack
  rw [hpin]
  dsimp only
  cases hres : findAlternativeVideos env track blacklist with
  | nil =>
    constructor
    · rfl
    · intro v hv
      cases hv
  | cons best rest =>
    constructor
    · rfl
    · intro v hv
      have hbv : best = v := by
        cases hv
        rfl
      have hbm : best ∈ findAlternativeVideos env track blacklist := by
        rw [hres]
        exact List.mem_cons_self best rest
      have hpred : (!(blacklist.contains best.id)) = true :=
        (List.mem_filter.mp hbm).2
      rw [← hbv]
      revert hpred
      cases blacklist.contains best.id <;> simp

/-- Witness for the amended C4, which is also scenario D of the spec: the
exclusion set holds X, the raw search returns X then Y, and the resolution
selects Y with the full exclusion set passed to the search. -/
theorem search_excludes_blacklist_witness :
    (fetchVideoForTrack envSearch [keyX] trackA).searchedExcludeIds = some [keyX]
    ∧ ([keyX].contains vidY.id) = false :=
  ⟨(search_excludes_blacklist envSearch [keyX] trackA rfl).1,
   (search_excludes_blacklist envSearch [keyX] trackA rfl).2 vidY rfl⟩

/-- Claim C6, counterexample: start a discovery call for track A, switch to
track B while it is outstanding (starting a call for B), let the B call
resolve, then let the superseded A call resolve.  The final state has
current track B but the media items computed for A: the superseded result
IS applied to the now-current item, because fetchVideoForTrack captures no
identity token and performs no staleness check before setMediaItems.  This
refutes the claim that such results are never applied. -/
theorem stale_result_applied_counterexample :
    stRace.currentTrack = some trackB
    ∧ stRace.mediaItems = mediaItemsFor envRace [] trackA
    ∧ mediaItemsFor envRace [] trackA ≠ mediaItemsFor envRace [] trackB := by
  refine ⟨rfl, rfl, by decide⟩

/-- Claim C6 (amended): the resolution of an outstanding discovery call
applies the media items computed for the calls captured track argument,
regardless of the current track identity at arrival time: no identity token
guards the application, so a superseded call that resolves last overwrites
the media of the now-current item. -/
theorem resolve_applies_captured_track (env : DiscoveryEnv) (blacklist : List String)
    (st : PlayerState) (i : Nat) (t : Track) (h : st.pending.get? i = some t) :
    (resolvePending env blacklist st i).mediaItems = mediaItemsFor env blacklist t := by
  unfold resolvePending
  rw [h]

/-- Witness for the amended C6: resolving the first outstanding call (for
A) applies the items for A even though the current track is B. -/
theorem resolve_applies_captured_track_witness :
    (resolvePending envRace [] (startFetch (startFetch st0 trackA) trackB) 0).mediaItems
      = mediaItemsFor envRace [] trackA :=
  resolve_applies_captured_track envRace [] (startFetch (startFetch st0 trackA) trackB) 0
    trackA rfl

/-- Claim C7: for every track written via setTrack under a valid key, the
record found under that key afterwards preserves the existing like status
value and its checked timestamp exactly when the existing status was
unexpired at write time; when the existing status was expired (or there was
no entry), the written record carries no status. -/
theorem setTrack_preserves_unexpired_status (cfg : TrackCacheConfig) (s : CacheStore)
    (now : Nat) (track : Track) (r : CachedTrack)
    (hid : track.id ≠ "")
    (hr : mapGet (setTrack cfg s now track) track.id = some r) :
    (isExpired cfg s now track.id (some DataType.likeStatus) = false →
       r.isLiked = (mapGet s track.id).bind CachedTrack.isLiked
       ∧ r.likeStatusChecked = (mapGet s track.id).bind CachedTrack.likeStatusChecked)
    ∧ (isExpired cfg s now track.id (some DataType.likeStatus) = true →
       r.isLiked = none ∧ r.likeStatusChecked = none) := by
  unfold setTrack at hr
  rw [if_neg hid] at hr
  have hrec : r = setTrackRecord cfg s now track :=
    mapGet_enforce_mapSet cfg s track.id _ r hr
  subst hrec
  constructor
  · intro hunexp
    unfold setTrackRecord
    cases hget : mapGet s track.id with
    | none =>
      exfalso
      unfold isExpired at hunexp
      rw [if_neg hid, hget] at hunexp
      cases hunexp
    | some existing =>
      dsimp only
      rw [if_pos hunexp]
      exact ⟨rfl, rfl⟩
  · intro hexp
    unfold setTrackRecord
    cases hget : mapGet s track.id with
    | none => exact ⟨rfl, rfl⟩
    | some existing =>
      have hcond : ¬ (isExpired cfg s now track.id (some DataType.likeStatus) = false) := by
        rw [hexp]
        simp
      dsimp only
      rw [if_neg hcond]
      exact ⟨rfl, rfl⟩

/-- Witness for C7 at the preserved case: writing metadata for A at
t 1100000 over the status-only entry of storeC5 (status checked at
t 1000000, unexpired) keeps the status value and its checked timestamp. -/
theorem setTrack_preserves_unexpired_status_witness :
    entryC7.isLiked = (mapGet storeC5 trackA.id).bind CachedTrack.isLiked
    ∧ entryC7.likeStatusChecked = (mapGet storeC5 trackA.id).bind CachedTrack.likeStatusChecked :=
  (setTrack_preserves_unexpired_status cfgD storeC5 1100000 trackA entryC7
    (by decide) (by decide)).1 (by decide)

/-- Claim C8: writing one facet never changes the clock of the other:
setLikeStatus on an existing entry leaves cacheExpires and metadataFetched
unchanged, and an updateTrack whose updates carry no isLiked and no
likeStatusChecked field leaves the stored likeStatusChecked unchanged, even
when it refreshes the metadata clocks. -/
theorem facet_clocks_independent :
    (∀ (cfg : TrackCacheConfig) (s : CacheStore) (now : Nat) (k : String) (liked : Bool)
       (existing r : CachedTrack),
       k ≠ "" → mapGet s k = some existing →
       mapGet (setLikeStatus cfg s now k liked) k = some r →
       r.cacheExpires = existing.cacheExpires ∧ r.metadataFetched = existing.metadataFetched)
    ∧ (∀ (cfg : TrackCacheConfig) (s : CacheStore) (now : Nat) (k : String)
       (u : TrackUpdates) (existing : CachedTrack),
       k ≠ "" → mapGet s k = some existing →
       u.isLiked = none → u.likeStatusChecked = none →
       (mapGet (updateTrack cfg s now k u) k).bind CachedTrack.likeStatusChecked
         = existing.likeStatusChecked) := by
  constructor
  · intro cfg s now k liked existing r hk hex hr
    unfold setLikeStatus at hr
    rw [if_neg hk] at hr
    have hrec : r = setLikeStatusRecord cfg s now k liked :=
      mapGet_enforce_mapSet cfg s k _ r hr
    subst hrec
    unfold setLikeStatusRecord
    rw [hex]
    exact ⟨rfl, rfl⟩
  · intro cfg s now k u existing hk hex hu1 hu2
    unfold updateTrack
    rw [if_neg hk, hex, mapGet_mapSet_self]
    show (updateTrackRecord cfg now existing u).likeStatusChecked = existing.likeStatusChecked
    unfold updateTrackRecord
    rw [hu1, hu2]
    by_cases hmeta : (truthyStr u.name || truthyStr u.artists
        || truthyStr u.album || truthyStr u.image) = true
    · dsimp only
      rw [if_pos hmeta]
      simp [Option.orElse]
    · dsimp only
      rw [if_neg hmeta]
      simp [Option.orElse]

/-- Witness for C8: setLikeStatus at t 70000 over the metadata entry of
storeMeta keeps its metadata clocks; an updateTrack with only a new name
(which refreshes the metadata clocks) keeps likeStatusChecked. -/
theorem facet_clocks_independent_witness :
    (entryMetaLiked.cacheExpires = entryMeta.cacheExpires
     ∧ entryMetaLiked.metadataFetched = entryMeta.metadataFetched)
    ∧ (mapGet (updateTrack cfgD storeMeta 70000 trackA.id updName) trackA.id).bind
        CachedTrack.likeStatusChecked = entryMeta.likeStatusChecked :=
  ⟨facet_clocks_independent.1 cfgD storeMeta 70000 trackA.id true entryMeta entryMetaLiked
     (by decide) (by decide) (by decide),
   facet_clocks_independent.2 cfgD storeMeta 70000 trackA.id updName entryMeta
     (by decide) (by decide) rfl rfl⟩

end VorbisPlayer
